import Mathlib

/-!
Verification of the predator-prey fuzzy-decision simulation.

The definitions below are a shallow embedding of the Python sources:
`models/fuzzy_brain.py` (fuzzy variables, rules, inference, the herbivore
and predator brains), `models/agents/base_agent.py` (tiered energy loss,
offspring placement), `models/agents/herbivore.py` (step, sprint, eating,
reproduction) and `models/agents/predator.py` (step, hunting,
reproduction), with the numeric constants of `models/config.py`.
Energy values are modelled as rationals; RNG draws and grid-dependent
facts (which cell the agent occupies, whether grass or prey shares the
cell) enter as explicit parameters.
-/

namespace PredPrey

/-! ### Configuration constants, from models/config.py -/

def GRASS_ENERGY_VALUE : ℚ := 20

def HERBIVORE_INIT_ENERGY : ℚ := 50

def HERBIVORE_MAX_ENERGY : ℚ := 100

/-- Herbivore hunger tiers `(threshold, energy_loss)`, highest threshold first. -/
def HERBIVORE_HUNGER_LEVELS : List (ℕ × ℚ) := [(20, 2/5), (10, 1/5), (0, 1/10)]

def HERBIVORE_ENERGY_LOSS_CHANCE : ℚ := 1/5

def HERBIVORE_BREEDING_CHANCE : ℚ := 1/10

def HERBIVORE_BREEDING_ENERGY_COST : ℚ := 1/2

def HERBIVORE_OFFSPRING_ENERGY_FACTOR : ℚ := 4/5

def PREDATOR_INIT_ENERGY : ℚ := 80

def PREDATOR_MAX_ENERGY : ℚ := 150

/-- Predator hunger tiers `(threshold, energy_loss)`, highest threshold first. -/
def PREDATOR_HUNGER_LEVELS : List (ℕ × ℚ) := [(15, 4/5), (7, 2/5), (0, 1/5)]

def PREDATOR_BREEDING_CHANCE : ℚ := 1/20

def PREDATOR_BREEDING_ENERGY_COST : ℚ := 1/2

def PREDATOR_OFFSPRING_ENERGY_FACTOR : ℚ := 2/5

def PREDATOR_BREEDING_COOLDOWN : ℕ := 40

def PREDATOR_PREY_ENERGY_VALUE : ℚ := 30

/-! ### Generic fuzzy engine, from models/fuzzy_brain.py

Python dictionaries become association lists (insertion-ordered, as in
CPython); membership functions become rational-valued functions. -/

/-- Fuzzified inputs: variable name to (set name to membership degree). -/
abbrev Fuzzified := List (String × List (String × ℚ))

/-- First-match association-list lookup (Python `dict` read). -/
def alookup {α : Type} : List (String × α) → String → Option α
  | [], _ => none
  | (k, v) :: t, key => if k = key then some v else alookup t key

/-- One fuzzy rule: conjunctive antecedents `(variable, set)`, a consequent
`(variable, set, action)` and a weight. -/
structure FuzzyRule where
  antecedents : List (String × String)
  consequent : String × String × String
  weight : ℚ

/-- Membership degree of `(varName, setName)` in the fuzzified inputs, or
`none` when either name is absent (`FuzzyRule.evaluate`'s presence test). -/
def lookupDegree (fi : Fuzzified) (varName setName : String) : Option ℚ :=
  match alookup fi varName with
  | none => none
  | some sets => alookup sets setName

/-- Collect the degrees of all antecedents; `none` as soon as one is missing
(the early `return 0.0` in `FuzzyRule.evaluate`). -/
def collectDegrees (fi : Fuzzified) : List (String × String) → Option (List ℚ)
  | [] => some []
  | p :: t =>
    match lookupDegree fi p.1 p.2 with
    | none => none
    | some d =>
      match collectDegrees fi t with
      | none => none
      | some ds => some (d :: ds)

/-- `FuzzyRule.evaluate`: firing strength is `min(degrees) * weight` when all
antecedents are present and there is at least one; otherwise `0`. -/
def FuzzyRule.evaluate (r : FuzzyRule) (fi : Fuzzified) : ℚ :=
  match collectDegrees fi r.antecedents with
  | none => 0
  | some [] => 0
  | some (d :: ds) => ds.foldl min d * r.weight

/-- A fuzzy variable: a name and its fuzzy sets with membership functions. -/
structure FuzzyVariable where
  name : String
  sets : List (String × (ℚ → ℚ))

/-- `FuzzyVariable.fuzzify`: membership degree of a crisp value in each set. -/
def FuzzyVariable.fuzzify (v : FuzzyVariable) (x : ℚ) : List (String × ℚ) :=
  v.sets.map (fun p => (p.1, p.2 x))

/-- A fuzzy brain: registered input/output variables and the rule base. -/
structure FuzzyBrain where
  inputVariables : List FuzzyVariable
  outputVariables : List FuzzyVariable
  rules : List FuzzyRule

/-- Find a registered variable by name (the `var_name in self.input_variables`
test plus the read). -/
def findVariable : List FuzzyVariable → String → Option FuzzyVariable
  | [], _ => none
  | v :: t, name => if v.name = name then some v else findVariable t name

/-- `FuzzyBrain.fuzzify_inputs`: fuzzify every supplied input whose variable
is registered; unregistered inputs yield no entry. -/
def FuzzyBrain.fuzzifyInputs (b : FuzzyBrain) (inputs : List (String × ℚ)) : Fuzzified :=
  inputs.filterMap fun p =>
    match findVariable b.inputVariables p.1 with
    | some v => some (p.1, v.fuzzify p.2)
    | none => none

/-- Update the aggregated strength of `key` with `max` (the
`output_strengths[var][set] = max(current, firing_strength)` write, with
defaultdict semantics: a fresh key is appended in insertion order). -/
def updateStrength (acc : List ((String × String) × ℚ)) (key : String × String) (s : ℚ) :
    List ((String × String) × ℚ) :=
  match acc with
  | [] => [(key, s)]
  | (k, v) :: t => if k = key then (k, max v s) :: t else (k, v) :: updateStrength t key s

/-- One iteration of the rule loop in `FuzzyBrain.infer`: a rule contributes
only when its firing strength is strictly positive. -/
def inferStep (fi : Fuzzified) (acc : List ((String × String) × ℚ)) (r : FuzzyRule) :
    List ((String × String) × ℚ) :=
  let fs := r.evaluate fi
  if 0 < fs then updateStrength acc (r.consequent.1, r.consequent.2.1) fs else acc

/-- Aggregated output strengths of `FuzzyBrain.infer`, keyed by
`(output variable, output set)`. -/
def outputStrengths (rules : List FuzzyRule) (fi : Fuzzified) :
    List ((String × String) × ℚ) :=
  rules.foldl (inferStep fi) []

/-- `FuzzyBrain.infer`, restricted to the aggregated strengths it returns. -/
def FuzzyBrain.infer (b : FuzzyBrain) (fi : Fuzzified) : List ((String × String) × ℚ) :=
  outputStrengths b.rules fi

/-- Aggregated strength of one `(variable, set)` pair, `0` when absent
(the `.get(name, 0)` reads in `_get_actions`). -/
def lookupStrength (os : List ((String × String) × ℚ)) (v s : String) : ℚ :=
  match os with
  | [] => 0
  | (k, str) :: t => if k.1 = v ∧ k.2 = s then str else lookupStrength t v s

/-- The `(set, strength)` options recorded for one output variable, in
insertion order (the `output_strengths.get(var, {})` dictionary). -/
def varOptions (os : List ((String × String) × ℚ)) (v : String) : List (String × ℚ) :=
  os.filterMap fun p => if p.1.1 = v then some (p.1.2, p.2) else none

/-- The winner-take-all loop of `_get_actions`: keep the option with the
strictly greatest strength seen so far, normalising its name with `norm`. -/
def selectLoop (norm : String → String) : List (String × ℚ) → ℚ → String → String
  | [], _, best => best
  | (m, s) :: t, mx, best =>
    if mx < s then selectLoop norm t s (norm m) else selectLoop norm t mx best

/-! ### Herbivore brain, from HerbivoreBrain in models/fuzzy_brain.py -/

/-- Herbivore energy set "low". -/
def herbEnergyLow : ℚ → ℚ := fun x =>
  if x < 3/10 then max 0 (min 1 ((3/10 - x) / (3/10))) else 0

/-- Herbivore energy set "medium". -/
def herbEnergyMedium : ℚ → ℚ := fun x =>
  if 1/10 ≤ x ∧ x ≤ 7/10 then max 0 (min ((x - 1/10) / (3/10)) ((7/10 - x) / (3/10))) else 0

/-- Herbivore energy set "high". -/
def herbEnergyHigh : ℚ → ℚ := fun x =>
  if 1/2 < x then max 0 (min 1 ((x - 1/2) / (1/2))) else 0

/-- Herbivore energy set "full". -/
def herbEnergyFull : ℚ → ℚ := fun x =>
  if 85/100 < x then max 0 (min 1 ((x - 85/100) / (15/100))) else 0

/-- Herbivore food_proximity set "far". -/
def herbFoodFar : ℚ → ℚ := fun x =>
  if x < 3 then max 0 (min 1 ((3 - x) / 3)) else 0

/-- Herbivore food_proximity set "medium". -/
def herbFoodMedium : ℚ → ℚ := fun x =>
  if 1 ≤ x ∧ x ≤ 5 then max 0 (min ((x - 1) / 2) ((5 - x) / 2)) else 0

/-- Herbivore food_proximity set "near". -/
def herbFoodNear : ℚ → ℚ := fun x =>
  if 3 < x then max 0 (min 1 ((x - 3) / 3)) else 0

/-- Herbivore predator_proximity set "far". -/
def herbPredFar : ℚ → ℚ := fun x =>
  if x < 4 then max 0 (min 1 ((4 - x) / 4)) else 0

/-- Herbivore predator_proximity set "medium". -/
def herbPredMedium : ℚ → ℚ := fun x =>
  if 3/2 ≤ x ∧ x ≤ 6 then max 0 (min ((x - 3/2) / (5/2)) ((6 - x) / (5/2))) else 0

/-- Herbivore predator_proximity set "near". -/
def herbPredNear : ℚ → ℚ := fun x =>
  if 3 < x then max 0 (min 1 ((x - 3) / 3)) else 0

/-- Herbivore predator_proximity set "very_near". -/
def herbPredVeryNear : ℚ → ℚ := fun x =>
  if x < 2 then max 0 (min 1 ((2 - x) / 2)) else 0

/-- A placeholder output-set membership function (always 0 in the source). -/
def placeholderZero : ℚ → ℚ := fun _ => 0

def herbivoreInputVariables : List FuzzyVariable :=
  [⟨"energy", [("low", herbEnergyLow), ("medium", herbEnergyMedium),
               ("high", herbEnergyHigh), ("full", herbEnergyFull)]⟩,
   ⟨"food_proximity", [("far", herbFoodFar), ("medium", herbFoodMedium),
                       ("near", herbFoodNear)]⟩,
   ⟨"predator_proximity", [("far", herbPredFar), ("medium", herbPredMedium),
                           ("near", herbPredNear), ("very_near", herbPredVeryNear)]⟩]

def herbivoreOutputVariables : List FuzzyVariable :=
  [⟨"movement", [("flee", placeholderZero), ("sprint", placeholderZero),
                 ("wander", placeholderZero), ("seek_food", placeholderZero),
                 ("seek_partner", placeholderZero)]⟩,
   ⟨"reproduction", [("no", placeholderZero), ("yes", placeholderZero)]⟩]

/-- The herbivore rule base, in source order (`HerbivoreBrain._setup_rules`). -/
def herbivoreRules : List FuzzyRule :=
  [⟨[("predator_proximity", "very_near")], ("movement", "sprint", "sprint"), 1⟩,
   ⟨[("predator_proximity", "near")], ("movement", "flee", "flee"), 85/100⟩,
   ⟨[("predator_proximity", "medium"), ("energy", "low")], ("movement", "flee", "flee"), 7/10⟩,
   ⟨[("predator_proximity", "medium"), ("energy", "medium")], ("movement", "flee", "flee"), 6/10⟩,
   ⟨[("energy", "medium"), ("predator_proximity", "medium"), ("food_proximity", "near")],
     ("movement", "seek_food", "seek_food"), 65/100⟩,
   ⟨[("energy", "low"), ("food_proximity", "near"), ("predator_proximity", "far")],
     ("movement", "seek_food", "seek_food"), 9/10⟩,
   ⟨[("energy", "low"), ("food_proximity", "medium"), ("predator_proximity", "far")],
     ("movement", "seek_food", "seek_food"), 8/10⟩,
   ⟨[("energy", "medium"), ("food_proximity", "near"), ("predator_proximity", "far")],
     ("movement", "seek_food", "seek_food"), 7/10⟩,
   ⟨[("energy", "medium"), ("predator_proximity", "far")], ("movement", "wander", "wander"), 6/10⟩,
   ⟨[("energy", "high"), ("predator_proximity", "far")],
     ("movement", "seek_partner", "seek_partner"), 7/10⟩,
   ⟨[("energy", "full"), ("predator_proximity", "far")],
     ("movement", "seek_partner", "seek_partner"), 9/10⟩,
   ⟨[("energy", "full"), ("predator_proximity", "medium")],
     ("movement", "seek_partner", "seek_partner"), 6/10⟩,
   ⟨[("energy", "high"), ("predator_proximity", "far")], ("reproduction", "yes", "breed"), 9/10⟩,
   ⟨[("energy", "full")], ("reproduction", "yes", "breed"), 1⟩,
   ⟨[("energy", "medium"), ("predator_proximity", "far")], ("reproduction", "yes", "breed"), 6/10⟩,
   ⟨[("energy", "low")], ("reproduction", "no", "no_breed"), 7/10⟩,
   ⟨[("predator_proximity", "near")], ("reproduction", "no", "no_breed"), 9/10⟩]

def herbivoreBrain : FuzzyBrain :=
  ⟨herbivoreInputVariables, herbivoreOutputVariables, herbivoreRules⟩

/-- The movement-name normalisation of `HerbivoreBrain._get_actions`
(unknown names fall back to "wander"). -/
def herbMoveName (m : String) : String :=
  if m = "sprint" then "sprint"
  else if m = "flee" then "flee"
  else if m = "seek_food" then "seek_food"
  else if m = "seek_partner" then "seek_partner"
  else "wander"

/-- `HerbivoreBrain._get_actions`: winner-take-all movement (default
"wander") and the breed flag (`yes > no` and `yes > 0.3`). -/
def herbGetActions (os : List ((String × String) × ℚ)) : String × Bool :=
  let movement := selectLoop herbMoveName (varOptions os "movement") 0 "wander"
  let breedS := lookupStrength os "reproduction" "yes"
  let noBreedS := lookupStrength os "reproduction" "no"
  (movement, if noBreedS < breedS ∧ 3/10 < breedS then true else false)

/-- `HerbivoreBrain.decide`: fuzzify, infer, extract actions. -/
def herbivoreDecide (inputs : List (String × ℚ)) : String × Bool :=
  herbGetActions (herbivoreBrain.infer (herbivoreBrain.fuzzifyInputs inputs))

/-! ### Predator brain, from PredatorBrain in models/fuzzy_brain.py -/

/-- Predator energy set "low". -/
def predEnergyLow : ℚ → ℚ := fun x =>
  if x < 3/10 then max 0 (min 1 ((3/10 - x) / (3/10))) else 0

/-- Predator energy set "medium". -/
def predEnergyMedium : ℚ → ℚ := fun x =>
  if 1/10 ≤ x ∧ x ≤ 7/10 then max 0 (min ((x - 1/10) / (3/10)) ((7/10 - x) / (3/10))) else 0

/-- Predator energy set "high". -/
def predEnergyHigh : ℚ → ℚ := fun x =>
  if 1/2 < x then max 0 (min 1 ((x - 1/2) / (1/2))) else 0

/-- Predator prey_proximity set "far". -/
def predPreyFar : ℚ → ℚ := fun x =>
  if x < 4 then max 0 (min 1 ((4 - x) / 4)) else 0

/-- Predator prey_proximity set "medium" (note: no `min 1` clamp). -/
def predPreyMedium : ℚ → ℚ := fun x =>
  if 1 ≤ x ∧ x ≤ 6 then max 0 (min ((x - 1) / 2) ((6 - x) / 2)) else 0

/-- Predator prey_proximity set "near". -/
def predPreyNear : ℚ → ℚ := fun x =>
  if 2 < x then max 0 (min 1 ((x - 2) / 4)) else 0

/-- Predator prey_count set "few". -/
def predCountFew : ℚ → ℚ := fun x =>
  if x < 2 then max 0 (min 1 ((2 - x) / 2)) else 0

/-- Predator prey_count set "some". -/
def predCountSome : ℚ → ℚ := fun x =>
  if 1 ≤ x ∧ x ≤ 5 then max 0 (min ((x - 1) / 2) ((5 - x) / 2)) else 0

/-- Predator prey_count set "many". -/
def predCountMany : ℚ → ℚ := fun x =>
  if 3 < x then max 0 (min 1 ((x - 3) / 3)) else 0

def predatorInputVariables : List FuzzyVariable :=
  [⟨"energy", [("low", predEnergyLow), ("medium", predEnergyMedium),
               ("high", predEnergyHigh)]⟩,
   ⟨"prey_proximity", [("far", predPreyFar), ("medium", predPreyMedium),
                       ("near", predPreyNear)]⟩,
   ⟨"prey_count", [("few", predCountFew), ("some", predCountSome),
                   ("many", predCountMany)]⟩]

def predatorOutputVariables : List FuzzyVariable :=
  [⟨"hunting", [("conserve", placeholderZero), ("stalk", placeholderZero),
                ("chase", placeholderZero)]⟩,
   ⟨"reproduction", [("no", placeholderZero), ("yes", placeholderZero)]⟩]

/-- The predator rule base, in source order (`PredatorBrain._setup_rules`). -/
def predatorRules : List FuzzyRule :=
  [⟨[("energy", "low"), ("prey_proximity", "near")], ("hunting", "chase", "chase"), 1⟩,
   ⟨[("energy", "low"), ("prey_proximity", "medium")], ("hunting", "chase", "chase"), 9/10⟩,
   ⟨[("energy", "medium"), ("prey_proximity", "near")], ("hunting", "chase", "chase"), 9/10⟩,
   ⟨[("energy", "medium"), ("prey_count", "many")], ("hunting", "chase", "chase"), 8/10⟩,
   ⟨[("energy", "medium"), ("prey_count", "some")], ("hunting", "stalk", "stalk"), 7/10⟩,
   ⟨[("energy", "high"), ("prey_proximity", "near")], ("hunting", "chase", "chase"), 9/10⟩,
   ⟨[("energy", "high"), ("prey_proximity", "far"), ("prey_count", "few")],
     ("hunting", "conserve", "conserve"), 5/10⟩,
   ⟨[("prey_proximity", "near")], ("hunting", "chase", "chase"), 8/10⟩,
   ⟨[("energy", "high")], ("reproduction", "yes", "breed"), 7/10⟩,
   ⟨[("energy", "low")], ("reproduction", "no", "no_breed"), 9/10⟩,
   ⟨[("energy", "medium")], ("reproduction", "no", "no_breed"), 6/10⟩]

def predatorBrain : FuzzyBrain :=
  ⟨predatorInputVariables, predatorOutputVariables, predatorRules⟩

/-- The hunting-name normalisation of `PredatorBrain._get_actions`
(unknown names fall back to "conserve"). -/
def predHuntName (m : String) : String :=
  if m = "chase" then "chase"
  else if m = "stalk" then "stalk"
  else "conserve"

/-- `PredatorBrain._get_actions`: winner-take-all hunting choice (default
"conserve") and the breed flag (`yes > no` and `yes > 0.5`). -/
def predGetActions (os : List ((String × String) × ℚ)) : String × Bool :=
  let hunting := selectLoop predHuntName (varOptions os "hunting") 0 "conserve"
  let breedS := lookupStrength os "reproduction" "yes"
  let noBreedS := lookupStrength os "reproduction" "no"
  (hunting, if noBreedS < breedS ∧ 1/2 < breedS then true else false)

/-- `PredatorBrain.decide`: fuzzify, infer, extract actions. -/
def predatorDecide (inputs : List (String × ℚ)) : String × Bool :=
  predGetActions (predatorBrain.infer (predatorBrain.fuzzifyInputs inputs))

/-! ### Tiered energy loss, from Animal.reduce_energy in base_agent.py -/

/-- The loss of the first tier whose threshold the hunger counter exceeds
(`0` when no tier matches, i.e. no subtraction happens). -/
def tierLoss : List (ℕ × ℚ) → ℕ → ℚ
  | [], _ => 0
  | (t, l) :: rest, c => if t < c then l else tierLoss rest c

/-- The threshold of the last tier (`hunger_levels[-1][0]`). -/
def lastThreshold (levels : List (ℕ × ℚ)) : ℕ :=
  (levels.getLast?.map Prod.fst).getD 0

/-! ### Herbivore step, from Herbivore.step / _execute_decision

The fuzzy decision, the RNG draws and the presence of grass in the cell
finally occupied enter as parameters; grid movement itself does not touch
the herbivore's energy except through the sprint cost. -/

structure HerbState where
  energy : ℚ
  maxEnergy : ℚ
  stepsWithoutFood : ℕ
  sprintCooldown : ℕ
deriving DecidableEq

/-- The sprint emergency cost: 8% of max energy, clamped at zero
(`self.energy = max(0, self.energy - 0.08 * self.max_energy)`). -/
def sprintEnergy (e maxE : ℚ) : ℚ :=
  max 0 (e - (8/100) * maxE)

/-- The energy split of `Herbivore.reproduce`:
`(parent energy after, offspring energy)`. -/
def herbReproduceSplit (e : ℚ) : ℚ × ℚ :=
  (e * HERBIVORE_BREEDING_ENERGY_COST,
   e * HERBIVORE_BREEDING_ENERGY_COST * HERBIVORE_OFFSPRING_ENERGY_FACTOR)

/-- The energy split of `Predator.reproduce`:
`(parent energy after, offspring energy)`. -/
def predReproduceSplit (e : ℚ) : ℚ × ℚ :=
  (e * PREDATOR_BREEDING_ENERGY_COST,
   e * PREDATOR_OFFSPRING_ENERGY_FACTOR)

/-- The sprint branch of `Herbivore._execute_decision`: when the movement
decision is "sprint" and the cooldown is over, pay the clamped emergency
cost and set the cooldown to 5; the other movement branches do not touch
the herbivore's own state. -/
def herbSprintStage (s : HerbState) (movement : String) : HerbState :=
  if movement = "sprint" then
    if s.sprintCooldown = 0 then
      { s with energy := sprintEnergy s.energy s.maxEnergy, sprintCooldown := 5 }
    else s
  else s

/-- The unconditional `eat_grass` call of `_execute_decision`: when grass
shares the cell finally occupied, gain capped energy and reset hunger. -/
def herbEatStage (s : HerbState) (grassHere : Bool) : HerbState :=
  if grassHere then
    { s with energy := min (s.energy + GRASS_ENERGY_VALUE) s.maxEnergy,
             stepsWithoutFood := 0 }
  else s

/-- The breeding branch of `_execute_decision`: with a positive decision and
a passing random trial, `reproduce` halves the parent's energy. -/
def herbBreedStage (s : HerbState) (breed : Bool) (breedDraw : ℚ) : HerbState :=
  if breed ∧ breedDraw < HERBIVORE_BREEDING_CHANCE then
    { s with energy := (herbReproduceSplit s.energy).1 }
  else s

/-- `Herbivore._execute_decision`, restricted to its effect on the
herbivore's own state: sprint cost, then `eat_grass`, then breeding. -/
def herbAct (s : HerbState) (movement : String) (breed : Bool)
    (breedDraw : ℚ) (grassHere : Bool) : HerbState :=
  herbBreedStage (herbEatStage (herbSprintStage s movement) grassHere) breed breedDraw

/-- `Herbivore.step`, restricted to the herbivore's own state: cooldown
tick, hunger increment, the (unreachable) stochastic skip of the lowest
hunger tier, tiered energy loss with starvation death (`none` = removed
from the grid, no further action), then `_execute_decision`. -/
def herbStep (s : HerbState) (movement : String) (breed : Bool)
    (skipDraw breedDraw : ℚ) (grassHere : Bool) : Option HerbState :=
  let cd := if 0 < s.sprintCooldown then s.sprintCooldown - 1 else s.sprintCooldown
  let swf := s.stepsWithoutFood + 1
  if swf ≤ lastThreshold HERBIVORE_HUNGER_LEVELS ∧ HERBIVORE_ENERGY_LOSS_CHANCE ≤ skipDraw then
    some (herbAct ⟨s.energy, s.maxEnergy, swf, cd⟩ movement breed breedDraw grassHere)
  else
    let e := s.energy - tierLoss HERBIVORE_HUNGER_LEVELS swf
    if e ≤ 0 then none
    else some (herbAct ⟨e, s.maxEnergy, swf, cd⟩ movement breed breedDraw grassHere)

/-! ### Predator step, from Predator.step / _execute_decision -/

structure PredState where
  energy : ℚ
  maxEnergy : ℚ
  stepsWithoutFood : ℕ
  breedingCooldown : ℕ
deriving DecidableEq

/-- The `hunt` attempt of `Predator._execute_decision`: every hunting
branch attempts `hunt` exactly once; on success, gain capped energy and
reset hunger (the success flag enters as a parameter). -/
def predHuntStage (s : PredState) (huntSuccess : Bool) : PredState :=
  if huntSuccess then
    { s with energy := min (s.energy + PREDATOR_PREY_ENERGY_VALUE) s.maxEnergy,
             stepsWithoutFood := 0 }
  else s

/-- The breeding branch of `Predator._execute_decision`: with a positive
decision, a passing random trial and no cooldown, `reproduce` halves the
parent's energy and resets the cooldown. -/
def predBreedStage (s : PredState) (breed : Bool) (breedDraw : ℚ) : PredState :=
  if breed ∧ breedDraw < PREDATOR_BREEDING_CHANCE ∧ s.breedingCooldown = 0 then
    { s with energy := (predReproduceSplit s.energy).1,
             breedingCooldown := PREDATOR_BREEDING_COOLDOWN }
  else s

/-- `Predator._execute_decision`, restricted to the predator's own state:
the `hunt` attempt, then breeding. -/
def predAct (s : PredState) (breed : Bool) (breedDraw : ℚ) (huntSuccess : Bool) : PredState :=
  predBreedStage (predHuntStage s huntSuccess) breed breedDraw

/-- `Predator.step`, restricted to the predator's own state: cooldown tick,
hunger increment, tiered energy loss with starvation death (`none` =
removed, no further action), then `_execute_decision`. -/
def predStep (s : PredState) (breed : Bool) (breedDraw : ℚ) (huntSuccess : Bool) :
    Option PredState :=
  let cd := if 0 < s.breedingCooldown then s.breedingCooldown - 1 else s.breedingCooldown
  let swf := s.stepsWithoutFood + 1
  let e := s.energy - tierLoss PREDATOR_HUNGER_LEVELS swf
  if e ≤ 0 then none
  else some (predAct ⟨e, s.maxEnergy, swf, cd⟩ breed breedDraw huntSuccess)

/-! ### Eating and hunting, from Herbivore.eat_grass and Predator.hunt

A grid cell's occupants are a list of entities; both loops consume the
first edible occupant and leave everything else in place. -/

inductive Entity
  | grass
  | herbivore
  | predator
  | other
deriving DecidableEq

structure EatResult where
  energy : ℚ
  stepsWithoutFood : ℕ
  cell : List Entity
deriving DecidableEq

structure HuntResult where
  energy : ℚ
  stepsWithoutFood : ℕ
  cell : List Entity
  ate : Bool
deriving DecidableEq

/-- `Herbivore.eat_grass`: eat the first grass in the cell (energy gain
capped at max, hunger reset, that grass removed); otherwise no change. -/
def eatGrass (en maxE : ℚ) (swf : ℕ) : List Entity → EatResult
  | [] => ⟨en, swf, []⟩
  | e :: rest =>
    if e = Entity.grass then
      ⟨min (en + GRASS_ENERGY_VALUE) maxE, 0, rest⟩
    else
      let r := eatGrass en maxE swf rest
      ⟨r.energy, r.stepsWithoutFood, e :: r.cell⟩

/-- `Predator.hunt`: eat the first herbivore in the cell (energy gain
capped at max, hunger reset, that herbivore removed, returns success);
otherwise no change and failure. -/
def hunt (en maxE : ℚ) (swf : ℕ) : List Entity → HuntResult
  | [] => ⟨en, swf, [], false⟩
  | e :: rest =>
    if e = Entity.herbivore then
      ⟨min (en + PREDATOR_PREY_ENERGY_VALUE) maxE, 0, rest, true⟩
    else
      let r := hunt en maxE swf rest
      ⟨r.energy, r.stepsWithoutFood, e :: r.cell, r.ate⟩

/-- Number of grass units in a cell. -/
def countGrass (l : List Entity) : ℕ :=
  l.countP (fun e => e == Entity.grass)

/-- Number of herbivores in a cell. -/
def countHerb (l : List Entity) : ℕ :=
  l.countP (fun e => e == Entity.herbivore)

/-! ### Offspring placement, from Animal.place_offspring and
Herbivore.reproduce

`place_offspring` draws a random cell from the center-inclusive
neighborhood and places the offspring there; it never inspects the cell's
occupants. The random choice enters as an index. -/

/-- `Animal.place_offspring`: the chosen cell, or `none` when the parent
has no valid position or no neighborhood. -/
def placeOffspring (posValid : Bool) (neighbors : List (ℤ × ℤ)) (choice : ℕ) :
    Option (ℤ × ℤ) :=
  if posValid ∧ neighbors ≠ [] then neighbors[choice % neighbors.length]? else none

/-- `Herbivore.reproduce`: parent energy after, offspring energy, and where
the offspring was placed. The energy split happens before (and regardless
of) placement. -/
def herbReproduce (e : ℚ) (posValid : Bool) (neighbors : List (ℤ × ℤ)) (choice : ℕ) :
    ℚ × ℚ × Option (ℤ × ℤ) :=
  ((herbReproduceSplit e).1, (herbReproduceSplit e).2,
   placeOffspring posValid neighbors choice)

/-- The nine center-inclusive neighborhood cells of position (1,1) on a
grid, used as a concrete reproduction scenario. -/
def c7Neighbors : List (ℤ × ℤ) :=
  [(0, 0), (0, 1), (0, 2), (1, 0), (1, 1), (1, 2), (2, 0), (2, 1), (2, 2)]

/-- An occupancy map in which every cell is occupied: the "zero free
adjacent cells" scenario. -/
def c7Occupied : (ℤ × ℤ) → Bool := fun _ => true

/-! ### Spec-side definitions

These follow the specification's wording, to be compared with the
definitions translated from the source. -/

/-- Minimum of a list of degrees, written as the spec's "min(membership
degree over all antecedent pairs)" (right fold, `none` on the empty list). -/
def listMin : List ℚ → Option ℚ
  | [] => none
  | d :: ds => some ((listMin ds).elim d (min d))

/-- The membership degree the spec assigns to an antecedent pair
(degree 0 when absent). -/
def degreeOf (fi : Fuzzified) (p : String × String) : ℚ :=
  (lookupDegree fi p.1 p.2).getD 0

/-! ## Lemmas -/

theorem collectDegrees_eq_none (fi : Fuzzified) :
    ∀ l : List (String × String), (∃ p ∈ l, lookupDegree fi p.1 p.2 = none) →
      collectDegrees fi l = none := by
  intro l
  induction l with
  | nil => rintro ⟨p, hp, -⟩; cases hp
  | cons q t ih =>
    rintro ⟨p, hp, hnone⟩
    rcases List.mem_cons.mp hp with h | h
    · subst h
      rw [collectDegrees, hnone]
    · rw [collectDegrees]
      cases hq : lookupDegree fi q.1 q.2 with
      | none => rfl
      | some d => rw [ih ⟨p, h, hnone⟩]

theorem collectDegrees_eq_map (fi : Fuzzified) :
    ∀ l : List (String × String), (∀ p ∈ l, (lookupDegree fi p.1 p.2).isSome = true) →
      collectDegrees fi l = some (l.map (degreeOf fi)) := by
  intro l
  induction l with
  | nil => intro _; rfl
  | cons q t ih =>
    intro h
    have hq := h q (List.mem_cons_self q t)
    cases hd : lookupDegree fi q.1 q.2 with
    | none => rw [hd] at hq; simp at hq
    | some d =>
      have ht := ih fun p hp => h p (List.mem_cons_of_mem q hp)
      rw [collectDegrees, hd, ht, List.map_cons]
      have : degreeOf fi q = d := by rw [degreeOf, hd]; rfl
      rw [this]

theorem foldl_min_eq_listMin (ds : List ℚ) : ∀ d : ℚ, ds.foldl min d = (listMin ds).elim d (min d) := by
  induction ds with
  | nil => intro d; rfl
  | cons e t ih =>
    intro d
    rw [List.foldl_cons, ih (min d e), listMin]
    cases ht : listMin t with
    | none => simp [ht]
    | some m => simp [ht, min_assoc]

theorem herbSprintStage_energy_nonneg (s : HerbState) (m : String) (h : 0 ≤ s.energy) :
    0 ≤ (herbSprintStage s m).energy := by
  rw [herbSprintStage]
  split_ifs <;> first | exact le_max_left 0 _ | exact h

theorem herbSprintStage_maxEnergy (s : HerbState) (m : String) :
    (herbSprintStage s m).maxEnergy = s.maxEnergy := by
  rw [herbSprintStage]
  split_ifs <;> rfl

theorem herbEatStage_energy_nonneg (s : HerbState) (g : Bool) (h : 0 ≤ s.energy)
    (hm : 0 ≤ s.maxEnergy) : 0 ≤ (herbEatStage s g).energy := by
  rw [herbEatStage]
  split_ifs with hg
  · exact le_min (by rw [GRASS_ENERGY_VALUE]; linarith) hm
  · exact h

theorem herbBreedStage_energy_nonneg (s : HerbState) (br : Bool) (d : ℚ) (h : 0 ≤ s.energy) :
    0 ≤ (herbBreedStage s br d).energy := by
  rw [herbBreedStage]
  split_ifs with hb
  · show 0 ≤ (herbReproduceSplit s.energy).1
    rw [herbReproduceSplit, HERBIVORE_BREEDING_ENERGY_COST]
    dsimp only
    linarith
  · exact h

theorem herbAct_energy_nonneg (s : HerbState) (mov : String) (br : Bool) (d : ℚ) (g : Bool)
    (h : 0 ≤ s.energy) (hm : 0 ≤ s.maxEnergy) : 0 ≤ (herbAct s mov br d g).energy := by
  rw [herbAct]
  apply herbBreedStage_energy_nonneg
  apply herbEatStage_energy_nonneg
  · exact herbSprintStage_energy_nonneg s mov h
  · rw [herbSprintStage_maxEnergy]; exact hm

theorem predHuntStage_energy_nonneg (s : PredState) (hs : Bool) (h : 0 ≤ s.energy)
    (hm : 0 ≤ s.maxEnergy) : 0 ≤ (predHuntStage s hs).energy := by
  rw [predHuntStage]
  split_ifs with hg
  · exact le_min (by rw [PREDATOR_PREY_ENERGY_VALUE]; linarith) hm
  · exact h

theorem predHuntStage_maxEnergy (s : PredState) (hs : Bool) :
    (predHuntStage s hs).maxEnergy = s.maxEnergy := by
  rw [predHuntStage]
  split_ifs <;> rfl

theorem predBreedStage_energy_nonneg (s : PredState) (br : Bool) (d : ℚ) (h : 0 ≤ s.energy) :
    0 ≤ (predBreedStage s br d).energy := by
  rw [predBreedStage]
  split_ifs with hb
  · show 0 ≤ (predReproduceSplit s.energy).1
    rw [predReproduceSplit, PREDATOR_BREEDING_ENERGY_COST]
    dsimp only
    linarith
  · exact h

theorem predAct_energy_nonneg (s : PredState) (br : Bool) (d : ℚ) (hs : Bool)
    (h : 0 ≤ s.energy) (hm : 0 ≤ s.maxEnergy) : 0 ≤ (predAct s br d hs).energy := by
  rw [predAct]
  apply predBreedStage_energy_nonneg
  apply predHuntStage_energy_nonneg _ _ h hm

theorem eatGrass_mem (en maxE : ℚ) (swf : ℕ) :
    ∀ cell : List Entity, Entity.grass ∈ cell →
      (eatGrass en maxE swf cell).energy = min (en + GRASS_ENERGY_VALUE) maxE
      ∧ (eatGrass en maxE swf cell).stepsWithoutFood = 0
      ∧ countGrass (eatGrass en maxE swf cell).cell + 1 = countGrass cell
      ∧ (eatGrass en maxE swf cell).cell.length + 1 = cell.length := by
  intro cell
  induction cell with
  | nil => intro h; cases h
  | cons e rest ih =>
    intro h
    by_cases he : e = Entity.grass
    · subst he
      refine ⟨rfl, rfl, ?_, rfl⟩
      show countGrass rest + 1 = countGrass (Entity.grass :: rest)
      simp [countGrass, List.countP_cons]
    · have hrest : Entity.grass ∈ rest := by
        rcases List.mem_cons.mp h with h1 | h1
        · exact absurd h1.symm he
        · exact h1
      obtain ⟨h1, h2, h3, h4⟩ := ih hrest
      rw [eatGrass, if_neg he]
      refine ⟨h1, h2, ?_, ?_⟩
      · show countGrass (e :: (eatGrass en maxE swf rest).cell) + 1 = countGrass (e :: rest)
        simp only [countGrass, List.countP_cons] at h3 ⊢
        omega
      · simpa using h4

theorem eatGrass_not_mem (en maxE : ℚ) (swf : ℕ) :
    ∀ cell : List Entity, Entity.grass ∉ cell →
      eatGrass en maxE swf cell = ⟨en, swf, cell⟩ := by
  intro cell
  induction cell with
  | nil => intro _; rfl
  | cons e rest ih =>
    intro h
    have he : ¬ e = Entity.grass := by
      rintro rfl
      exact h (List.mem_cons_self _ _)
    have hrest : Entity.grass ∉ rest := fun hh => h (List.mem_cons_of_mem e hh)
    rw [eatGrass, if_neg he, ih hrest]

theorem hunt_mem (en maxE : ℚ) (swf : ℕ) :
    ∀ cell : List Entity, Entity.herbivore ∈ cell →
      (hunt en maxE swf cell).energy = min (en + PREDATOR_PREY_ENERGY_VALUE) maxE
      ∧ (hunt en maxE swf cell).stepsWithoutFood = 0
      ∧ countHerb (hunt en maxE swf cell).cell + 1 = countHerb cell
      ∧ (hunt en maxE swf cell).cell.length + 1 = cell.length
      ∧ (hunt en maxE swf cell).ate = true := by
  intro cell
  induction cell with
  | nil => intro h; cases h
  | cons e rest ih =>
    intro h
    by_cases he : e = Entity.herbivore
    · subst he
      refine ⟨rfl, rfl, ?_, rfl, rfl⟩
      show countHerb rest + 1 = countHerb (Entity.herbivore :: rest)
      simp [countHerb, List.countP_cons]
    · have hrest : Entity.herbivore ∈ rest := by
        rcases List.mem_cons.mp h with h1 | h1
        · exact absurd h1.symm he
        · exact h1
      obtain ⟨h1, h2, h3, h4, h5⟩ := ih hrest
      rw [hunt, if_neg he]
      refine ⟨h1, h2, ?_, ?_, h5⟩
      · show countHerb (e :: (hunt en maxE swf rest).cell) + 1 = countHerb (e :: rest)
        simp only [countHerb, List.countP_cons] at h3 ⊢
        omega
      · simpa using h4

theorem hunt_not_mem (en maxE : ℚ) (swf : ℕ) :
    ∀ cell : List Entity, Entity.herbivore ∉ cell →
      hunt en maxE swf cell = ⟨en, swf, cell, false⟩ := by
  intro cell
  induction cell with
  | nil => intro _; rfl
  | cons e rest ih =>
    intro h
    have he : ¬ e = Entity.herbivore := by
      rintro rfl
      exact h (List.mem_cons_self _ _)
    have hrest : Entity.herbivore ∉ rest := fun hh => h (List.mem_cons_of_mem e hh)
    rw [hunt, if_neg he, ih hrest]

/-! ## Claim theorems -/

/-- C2: for every fuzzy rule and fuzzified input snapshot, the firing
strength equals the rule's weight times the minimum membership degree over
its antecedent pairs; when any referenced variable or set name is absent
from the snapshot, the firing strength is exactly 0 (and, the function
being total, no error is raised). -/
theorem C2_firing_strength (r : FuzzyRule) (fi : Fuzzified) :
    ((∃ p ∈ r.antecedents, lookupDegree fi p.1 p.2 = none) → r.evaluate fi = 0)
    ∧ ((∀ p ∈ r.antecedents, (lookupDegree fi p.1 p.2).isSome = true) →
        ∀ m, listMin (r.antecedents.map (degreeOf fi)) = some m →
          r.evaluate fi = r.weight * m) := by
  constructor
  · intro h
    rw [FuzzyRule.evaluate, collectDegrees_eq_none fi _ h]
  · intro h m hm
    rw [FuzzyRule.evaluate, collectDegrees_eq_map fi _ h]
    cases hl : r.antecedents.map (degreeOf fi) with
    | nil => rw [hl, listMin] at hm; cases hm
    | cons d ds =>
      rw [hl] at hm
      rw [listMin] at hm
      have hm2 : (listMin ds).elim d (min d) = m := by
        injection hm
      show ds.foldl min d * r.weight = r.weight * m
      rw [foldl_min_eq_listMin, hm2, mul_comm]

/-- Witness for C2 at a concrete rule and snapshot: the all-present case
gives weight times minimum, the absent case gives 0. -/
theorem C2_firing_strength_witness :
    FuzzyRule.evaluate ⟨[("energy", "low"), ("food_proximity", "near")],
        ("movement", "seek_food", "seek_food"), 1/2⟩
      [("energy", [("low", 3/4)]), ("food_proximity", [("near", 1/4)])] = (1/2) * (1/4)
    ∧ FuzzyRule.evaluate ⟨[("prey_count", "many")], ("hunting", "chase", "chase"), 1⟩
      [("energy", [("low", 3/4)])] = 0 := by
  constructor
  · exact (C2_firing_strength _ _).2 (by decide) (1/4)
      (by norm_num +decide [listMin, degreeOf, lookupDegree, alookup, min_def])
  · exact (C2_firing_strength _ _).1 ⟨("prey_count", "many"), by decide, by decide⟩

/-- C10: a fuzzy rule with an empty antecedents mapping has firing strength
exactly 0 for every fuzzified snapshot, and contributes nothing to the
aggregated output strengths of inference, wherever it sits in the rule
base. -/
theorem C10_empty_rule (fi : Fuzzified) (c : String × String × String) (w : ℚ)
    (rules1 rules2 : List FuzzyRule) :
    FuzzyRule.evaluate ⟨[], c, w⟩ fi = 0
    ∧ outputStrengths (rules1 ++ ⟨[], c, w⟩ :: rules2) fi
        = outputStrengths (rules1 ++ rules2) fi := by
  have h0 : FuzzyRule.evaluate ⟨[], c, w⟩ fi = 0 := rfl
  refine ⟨h0, ?_⟩
  rw [outputStrengths, outputStrengths, List.foldl_append, List.foldl_append, List.foldl_cons]
  have hstep : ∀ acc, inferStep fi acc ⟨[], c, w⟩ = acc := by
    intro acc
    rw [inferStep]
    simp [h0]
  rw [hstep]

/-- C5: a successful eat (herbivore eating grass, predator eating a
herbivore) never raises the eater's energy above max_energy, removes
exactly one eaten unit from the cell, and resets the hunger counter to 0;
with no edible occupant in the cell, nothing changes. -/
theorem C5_eating_effects (en maxE : ℚ) (swf : ℕ) (cell : List Entity) :
    (Entity.grass ∈ cell →
      (eatGrass en maxE swf cell).energy ≤ maxE
      ∧ (eatGrass en maxE swf cell).stepsWithoutFood = 0
      ∧ countGrass (eatGrass en maxE swf cell).cell + 1 = countGrass cell
      ∧ (eatGrass en maxE swf cell).cell.length + 1 = cell.length)
    ∧ (Entity.grass ∉ cell → eatGrass en maxE swf cell = ⟨en, swf, cell⟩)
    ∧ (Entity.herbivore ∈ cell →
      (hunt en maxE swf cell).energy ≤ maxE
      ∧ (hunt en maxE swf cell).stepsWithoutFood = 0
      ∧ countHerb (hunt en maxE swf cell).cell + 1 = countHerb cell
      ∧ (hunt en maxE swf cell).cell.length + 1 = cell.length
      ∧ (hunt en maxE swf cell).ate = true)
    ∧ (Entity.herbivore ∉ cell → hunt en maxE swf cell = ⟨en, swf, cell, false⟩) := by
  refine ⟨fun h => ?_, eatGrass_not_mem en maxE swf cell, fun h => ?_,
    hunt_not_mem en maxE swf cell⟩
  · obtain ⟨h1, h2, h3, h4⟩ := eatGrass_mem en maxE swf cell h
    exact ⟨h1 ▸ min_le_right _ _, h2, h3, h4⟩
  · obtain ⟨h1, h2, h3, h4, h5⟩ := hunt_mem en maxE swf cell h
    exact ⟨h1 ▸ min_le_right _ _, h2, h3, h4, h5⟩

/-- Witness for C5 at concrete cells: a herbivore at energy 95 of 100 eats
the one grass in its cell (energy capped at 100, hunger reset, grass gone)
and a predator at energy 130 of 150 eats exactly one of two herbivores. -/
theorem C5_eating_effects_witness :
    eatGrass 95 100 7 [Entity.other, Entity.grass] = ⟨100, 0, [Entity.other]⟩
    ∧ (eatGrass 95 100 7 [Entity.other, Entity.grass]).energy ≤ 100
    ∧ hunt 130 150 9 [Entity.predator, Entity.herbivore, Entity.herbivore]
        = ⟨150, 0, [Entity.predator, Entity.herbivore], true⟩
    ∧ countHerb (hunt 130 150 9 [Entity.predator, Entity.herbivore, Entity.herbivore]).cell + 1
        = countHerb [Entity.predator, Entity.herbivore, Entity.herbivore] := by
  have h1 := (C5_eating_effects 95 100 7 [Entity.other, Entity.grass]).1 (by decide)
  have h2 := ((C5_eating_effects 130 150 9
    [Entity.predator, Entity.herbivore, Entity.herbivore]).2.2).1 (by decide)
  refine ⟨?_, h1.1, ?_, h2.2.2.1⟩
  · norm_num +decide [eatGrass, GRASS_ENERGY_VALUE, min_def]
  · norm_num +decide [hunt, PREDATOR_PREY_ENERGY_VALUE, min_def]

/-- C6: for a parent with pre-reproduction energy between 0 and the species
max_energy, the reproduction energy split satisfies
parent_after + offspring ≤ parent_before, and the offspring energy does not
exceed the species max_energy (both herbivore and predator). -/
theorem C6_reproduction_conservation (E : ℚ) (h0 : 0 ≤ E) :
    (E ≤ HERBIVORE_MAX_ENERGY →
      (herbReproduceSplit E).1 + (herbReproduceSplit E).2 ≤ E
      ∧ (herbReproduceSplit E).2 ≤ HERBIVORE_MAX_ENERGY)
    ∧ (E ≤ PREDATOR_MAX_ENERGY →
      (predReproduceSplit E).1 + (predReproduceSplit E).2 ≤ E
      ∧ (predReproduceSplit E).2 ≤ PREDATOR_MAX_ENERGY) := by
  refine ⟨fun hE => ⟨?_, ?_⟩, fun hE => ⟨?_, ?_⟩⟩ <;>
    simp only [herbReproduceSplit, predReproduceSplit,
      HERBIVORE_BREEDING_ENERGY_COST, HERBIVORE_OFFSPRING_ENERGY_FACTOR,
      PREDATOR_BREEDING_ENERGY_COST, PREDATOR_OFFSPRING_ENERGY_FACTOR,
      HERBIVORE_MAX_ENERGY, PREDATOR_MAX_ENERGY] at * <;> linarith

/-- Witness for C6 at the species initial energies: herbivore at 50 of max
100 and predator at 80 of max 150. -/
theorem C6_reproduction_conservation_witness :
    ((herbReproduceSplit 50).1 + (herbReproduceSplit 50).2 ≤ 50
      ∧ (herbReproduceSplit 50).2 ≤ HERBIVORE_MAX_ENERGY)
    ∧ ((predReproduceSplit 80).1 + (predReproduceSplit 80).2 ≤ 80
      ∧ (predReproduceSplit 80).2 ≤ PREDATOR_MAX_ENERGY) :=
  ⟨(C6_reproduction_conservation 50 (by norm_num)).1
     (by norm_num [HERBIVORE_MAX_ENERGY]),
   (C6_reproduction_conservation 80 (by norm_num)).2
     (by norm_num [PREDATOR_MAX_ENERGY])⟩

/-- C1, counterexample: a herbivore that starts its step at energy 5 of
max 100 and sprints reaches energy ≤ 0 at the sprint stage (the in-step
sprint cost clamps 4.9 - 8 to 0), yet its step ends with the herbivore
still on the grid having acted further: it eats the grass in its cell,
ending at energy 20 with hunger reset. So "energy ≤ 0 at any point during
the step implies removal and no further action" fails on the code. -/
theorem C1_counterexample :
    sprintEnergy (5 - tierLoss HERBIVORE_HUNGER_LEVELS (0 + 1)) 100 ≤ 0
    ∧ herbStep ⟨5, 100, 0, 0⟩ "sprint" false 1 1 true = some ⟨20, 100, 0, 5⟩ := by
  constructor
  · norm_num [sprintEnergy, tierLoss, HERBIVORE_HUNGER_LEVELS, max_def]
  · norm_num +decide [herbStep, herbAct, herbSprintStage, herbEatStage, herbBreedStage,
      sprintEnergy, herbReproduceSplit, tierLoss, lastThreshold,
      HERBIVORE_HUNGER_LEVELS, HERBIVORE_ENERGY_LOSS_CHANCE, HERBIVORE_BREEDING_CHANCE,
      GRASS_ENERGY_VALUE, HERBIVORE_BREEDING_ENERGY_COST, min_def, max_def]

/-- C1, amended: an organism whose energy becomes ≤ 0 in the hunger
(starvation) check of its own step is removed from the grid at once and
performs no further action that tick; the sprint cost instead clamps the
herbivore's energy at 0 without removal and its step continues; in all
cases an organism still on the grid when its step ends has energy ≥ 0. -/
theorem C1_step_energy (s : HerbState) (mov : String) (br : Bool) (d1 d2 : ℚ) (g : Bool)
    (p : PredState) (pbr : Bool) (pd : ℚ) (ph : Bool)
    (hm : 0 ≤ s.maxEnergy) (hpm : 0 ≤ p.maxEnergy) :
    (s.energy - tierLoss HERBIVORE_HUNGER_LEVELS (s.stepsWithoutFood + 1) ≤ 0 →
      herbStep s mov br d1 d2 g = none)
    ∧ (∀ s2, herbStep s mov br d1 d2 g = some s2 → 0 ≤ s2.energy)
    ∧ (p.energy - tierLoss PREDATOR_HUNGER_LEVELS (p.stepsWithoutFood + 1) ≤ 0 →
      predStep p pbr pd ph = none)
    ∧ (∀ p2, predStep p pbr pd ph = some p2 → 0 ≤ p2.energy) := by
  have hskip : ¬ (s.stepsWithoutFood + 1 ≤ lastThreshold HERBIVORE_HUNGER_LEVELS
      ∧ HERBIVORE_ENERGY_LOSS_CHANCE ≤ d1) := by
    rintro ⟨h1, -⟩
    rw [lastThreshold, HERBIVORE_HUNGER_LEVELS] at h1
    simp at h1
  refine ⟨?_, ?_, ?_, ?_⟩
  · intro hdead
    rw [herbStep, if_neg hskip, if_pos hdead]
  · intro s2 hsome
    rw [herbStep, if_neg hskip] at hsome
    by_cases hdead : s.energy - tierLoss HERBIVORE_HUNGER_LEVELS (s.stepsWithoutFood + 1) ≤ 0
    · rw [if_pos hdead] at hsome
      cases hsome
    · rw [if_neg hdead] at hsome
      have h2 := Option.some.inj hsome
      rw [← h2]
      refine herbAct_energy_nonneg _ mov br d2 g ?_ ?_
      · show 0 ≤ s.energy - tierLoss HERBIVORE_HUNGER_LEVELS (s.stepsWithoutFood + 1)
        linarith [lt_of_not_le hdead]
      · exact hm
  · intro hdead
    rw [predStep, if_pos hdead]
  · intro p2 hsome
    rw [predStep] at hsome
    by_cases hdead : p.energy - tierLoss PREDATOR_HUNGER_LEVELS (p.stepsWithoutFood + 1) ≤ 0
    · rw [if_pos hdead] at hsome
      cases hsome
    · rw [if_neg hdead] at hsome
      have h2 := Option.some.inj hsome
      rw [← h2]
      refine predAct_energy_nonneg _ pbr pd ph ?_ ?_
      · show 0 ≤ p.energy - tierLoss PREDATOR_HUNGER_LEVELS (p.stepsWithoutFood + 1)
        linarith [lt_of_not_le hdead]
      · exact hpm

/-- Witness for C1 at concrete states: a herbivore at energy 1/10 and a
predator at energy 1/5 both starve in the hunger check and are removed. -/
theorem C1_step_energy_witness :
    herbStep ⟨1/10, 100, 0, 0⟩ "wander" false 1 1 false = none
    ∧ predStep ⟨1/5, 150, 0, 0⟩ false 1 false = none := by
  have h := C1_step_energy ⟨1/10, 100, 0, 0⟩ "wander" false 1 1 false
    ⟨1/5, 150, 0, 0⟩ false 1 false (by norm_num) (by norm_num)
  exact ⟨h.1 (by norm_num [tierLoss, HERBIVORE_HUNGER_LEVELS]),
    h.2.2.1 (by norm_num [tierLoss, PREDATOR_HUNGER_LEVELS])⟩

/-- C3: on the Scenario A snapshot (energy 1.0, predator_proximity 6,
food_proximity 6) the herbivore brain selects movement "flee", not
"seek_partner" as the claim states, because at distance 6 the
predator_proximity "near" membership is 1 while "far" is 0; the breed flag
is true as claimed. This theorem evaluates the code at the failing input. -/
theorem C3_scenarioA_evaluation :
    herbivoreDecide [("energy", 1), ("predator_proximity", 6), ("food_proximity", 6)]
      = ("flee", true) := by
  norm_num +decide [herbivoreDecide, herbGetActions, FuzzyBrain.infer, FuzzyBrain.fuzzifyInputs,
    herbivoreBrain, herbivoreInputVariables, herbivoreOutputVariables, herbivoreRules,
    findVariable, FuzzyVariable.fuzzify, outputStrengths, inferStep, FuzzyRule.evaluate,
    collectDegrees, lookupDegree, alookup, updateStrength, varOptions, lookupStrength,
    selectLoop, herbMoveName,
    herbEnergyLow, herbEnergyMedium, herbEnergyHigh, herbEnergyFull,
    herbFoodFar, herbFoodMedium, herbFoodNear,
    herbPredFar, herbPredMedium, herbPredNear, herbPredVeryNear,
    List.filterMap, List.foldl, min_def, max_def]

/-- C4: the predator brain's prey_proximity "medium" membership function
returns 5/4 > 1 at input 3.5, violating the claim that every membership
function maps every real input into [0,1] (its `min 1` clamp is missing). -/
theorem C4_membership_above_one :
    predPreyMedium (7/2) = 5/4 ∧ ¬ predPreyMedium (7/2) ≤ 1 := by
  constructor <;> norm_num [predPreyMedium, min_def, max_def]

/-- C7, counterexample: with every one of the nine neighborhood cells
occupied (zero free adjacent cells), reproduction at energy 50 still
creates an offspring of energy 20, places it at the occupied cell (0,0),
and halves the parent's energy to 25 ≠ 50 — refuting "no offspring is
created and the parent's energy is unchanged". -/
theorem C7_counterexample :
    (∀ c ∈ c7Neighbors, c7Occupied c = true)
    ∧ herbReproduce 50 true c7Neighbors 0 = (25, 20, some (0, 0))
    ∧ c7Occupied (0, 0) = true
    ∧ (25 : ℚ) ≠ 50 := by
  refine ⟨by decide, ?_, rfl, by norm_num⟩
  norm_num +decide [herbReproduce, herbReproduceSplit, placeOffspring, c7Neighbors,
    HERBIVORE_BREEDING_ENERGY_COST, HERBIVORE_OFFSPRING_ENERGY_FACTOR]

/-- C7, amended: reproduction always halves the parent's energy before any
placement; with a valid position the offspring is placed at a cell drawn
from the center-inclusive neighborhood with no occupancy check at all, so
with zero free adjacent cells the offspring lands on an occupied cell;
only a parent without a grid position fails to place the offspring, and
even then the energy deduction has already happened (not atomic). -/
theorem C7_reproduce_not_atomic (e : ℚ) (ns : List (ℤ × ℤ)) (ch : ℕ)
    (occupied : (ℤ × ℤ) → Bool)
    (hocc : ∀ c ∈ ns, occupied c = true) (hne : ns ≠ []) :
    (herbReproduce e true ns ch).1 = e * HERBIVORE_BREEDING_ENERGY_COST
    ∧ (∃ c, (herbReproduce e true ns ch).2.2 = some c ∧ occupied c = true)
    ∧ (herbReproduce e false ns ch).2.2 = none
    ∧ (herbReproduce e false ns ch).1 = e * HERBIVORE_BREEDING_ENERGY_COST := by
  refine ⟨rfl, ?_, ?_, rfl⟩
  · have hlen : ch % ns.length < ns.length :=
      Nat.mod_lt _ (List.length_pos.mpr hne)
    refine ⟨ns[ch % ns.length], ?_, ?_⟩
    · show placeOffspring true ns ch = _
      rw [placeOffspring, if_pos ⟨rfl, hne⟩]
      exact List.getElem?_eq_getElem hlen
    · exact hocc _ (List.getElem_mem hlen)
  · show placeOffspring false ns ch = none
    rw [placeOffspring, if_neg]
    rintro ⟨h, -⟩
    cases h

/-- Witness for C7's amended statement at the all-occupied concrete
neighborhood. -/
theorem C7_reproduce_not_atomic_witness :
    (herbReproduce 50 true c7Neighbors 3).1 = 50 * HERBIVORE_BREEDING_ENERGY_COST
    ∧ (∃ c, (herbReproduce 50 true c7Neighbors 3).2.2 = some c ∧ c7Occupied c = true) := by
  have h := C7_reproduce_not_atomic 50 c7Neighbors 3 c7Occupied (by decide) (by decide)
  exact ⟨h.1, h.2.1⟩

/-- C8: whatever the RNG draw, a herbivore in the lowest hunger tier
(counter 0 at tick start) always loses the 0.1 lowest-tier energy on its
step - 50 becomes 49.9 for every draw - because the skip test compares the
already-incremented counter against threshold 0; the claimed stochastic
skip (loss only with probability HERBIVORE_ENERGY_LOSS_CHANCE) never
happens. -/
theorem C8_lowest_tier_loss_always_applied (d : ℚ) :
    herbStep ⟨50, 100, 0, 0⟩ "wander" false d 1 false = some ⟨499/10, 100, 1, 0⟩ := by
  norm_num +decide [herbStep, herbAct, herbSprintStage, herbEatStage, herbBreedStage,
    tierLoss, lastThreshold, HERBIVORE_HUNGER_LEVELS, HERBIVORE_ENERGY_LOSS_CHANCE,
    HERBIVORE_BREEDING_CHANCE]

/-- C9: on the Scenario C snapshot (energy 0.2, prey_proximity 0,
co-located prey) the predator brain selects hunting "conserve", not
"chase" as the claim states, because at distance 0 the prey_proximity
"near" membership is 0 while "far" is 1, so no chase rule fires. This
theorem evaluates the code at the failing input. (The hunt-effect half of
the claim does hold; see the C5 theorem about `hunt`.) -/
theorem C9_scenarioC_evaluation :
    predatorDecide [("energy", 1/5), ("prey_proximity", 0)] = ("conserve", false) := by
  norm_num +decide [predatorDecide, predGetActions, FuzzyBrain.infer, FuzzyBrain.fuzzifyInputs,
    predatorBrain, predatorInputVariables, predatorOutputVariables, predatorRules,
    findVariable, FuzzyVariable.fuzzify, outputStrengths, inferStep, FuzzyRule.evaluate,
    collectDegrees, lookupDegree, alookup, updateStrength, varOptions, lookupStrength,
    selectLoop, predHuntName,
    predEnergyLow, predEnergyMedium, predEnergyHigh,
    predPreyFar, predPreyMedium, predPreyNear,
    predCountFew, predCountSome, predCountMany,
    List.filterMap, List.foldl, min_def, max_def]

end PredPrey
